import Mathlib

/-!
Verification of the generation pipeline and its caching/concurrency layer of
the tweet-beef video generator backend.

The definitions below are a shallow embedding of the JavaScript source:

* `backend/services/cache.js` — the TTL cache (`Cache.generateKey`,
  `Cache.get`, `Cache.set`, `Cache.getOrCompute`);
* `backend/services/grok.js` — the backoff schedule (`getBackoffDelay`),
  the poller (`GrokClient.pollVideoStatus`) and the storyline
  normalisation in `GrokClient.generateStoryline`;
* the unnamed `GrokClient` file — `GrokClient.generateThumbnail`;
* `backend/routes/beef.js` — the media-generation join of `POST /`,
  the cohesive branch, and the `POST /batch` endpoint.

JavaScript machine integers are modelled as `Int` with explicit reduction
modulo 2^32 where the code truncates (`hash & hash`), timestamps as `Int`
milliseconds, floating point delays as `ℚ` (exact at every value the code
reaches before the cap applies), and fallible asynchronous calls as
`Except` values supplied to the pure orchestration logic.
-/

/-- Model of a JavaScript (JSON-serialisable) value, as used for the cache
key parameters.  `undef` models the JavaScript value `undefined`. -/
inductive JSValue where
  | str (s : String)
  | num (n : Int)
  | bool (b : Bool)
  | null
  | undef
  | arr (elems : List JSValue)
  | obj (fields : List (String × JSValue))

/-- First-match association-list lookup: the semantics of reading a
property of a JavaScript object / an entry of a `Map` whose keys are
strings. -/
def jsLookup {α : Type} : List (String × α) → String → Option α
  | [], _ => none
  | (k', v) :: rest, k => if k' = k then some v else jsLookup rest k

/-- Lower-case hexadecimal digit, as produced by JavaScript's
`toString(16)`. -/
def hexDigit (n : Nat) : Char :=
  if n < 10 then Char.ofNat (48 + n) else Char.ofNat (87 + n)

/-- Escape of a single character inside a JSON string literal
(ECMA-404 / `QuoteJSONString`). -/
def escapeChar (c : Char) : String :=
  if c = '"' then "\\\""
  else if c = '\\' then "\\\\"
  else if c = Char.ofNat 8 then "\\b"
  else if c = Char.ofNat 12 then "\\f"
  else if c = '\n' then "\\n"
  else if c = '\r' then "\\r"
  else if c = '\t' then "\\t"
  else if c.toNat < 32 then
    "\\u00" ++ String.singleton (hexDigit (c.toNat / 16)) ++
      String.singleton (hexDigit (c.toNat % 16))
  else String.singleton c

/-- JSON string quoting (`QuoteJSONString`). -/
def quoteJSONString (s : String) : String :=
  "\"" ++ String.join (s.data.map escapeChar) ++ "\""

/-- Comma-separated join of rendered JSON members. -/
def commaJoin : List String → String
  | [] => ""
  | [s] => s
  | s :: rest => s ++ "," ++ commaJoin rest

/-- The property-selection loop of `SerializeJSONObject` when
`JSON.stringify` was given an array replacer: for each key of the
replacer list (in replacer order), the property is included when it is
present and does not serialise to `undefined`, and skipped otherwise. -/
def selectKeys (keys : List String) (rendered : List (String × Option String)) :
    List String :=
  match keys with
  | [] => []
  | k :: ks =>
    match jsLookup rendered k with
    | some (some s) => (quoteJSONString k ++ ":" ++ s) :: selectKeys ks rendered
    | _ => selectKeys ks rendered

mutual

/-- Embedding of `JSON.stringify(v, allow)` for an array replacer `allow`: the replacer
list filters the properties of EVERY object in the tree (this is the
ECMAScript `PropertyList` semantics — `SerializeJSONObject` uses
`PropertyList` as its key list at every nesting depth).  Returns `none`
when the value serialises to `undefined`. -/
def serializeVal (allow : List String) (v : JSValue) : Option String :=
  match v with
  | .str s => some (quoteJSONString s)
  | .num n => some (toString n)
  | .bool b => some (if b then "true" else "false")
  | .null => some "null"
  | .undef => none
  | .arr es => some ("[" ++ commaJoin (serializeElems allow es) ++ "]")
  | .obj fs => some ("\x7b" ++ commaJoin (selectKeys allow (serializeFields allow fs)) ++ "\x7d")
termination_by structural v

/-- Array elements: `undefined` renders as `null` inside arrays. -/
def serializeElems (allow : List String) (vs : List JSValue) : List String :=
  match vs with
  | [] => []
  | v :: rest => (serializeVal allow v).getD "null" :: serializeElems allow rest
termination_by structural vs

/-- Serialise every field value of an object (the selection by the
replacer list is done by `selectKeys`). -/
def serializeFields (allow : List String) (fs : List (String × JSValue)) :
    List (String × Option String) :=
  match fs with
  | [] => []
  | (k, v) :: rest => (k, serializeVal allow v) :: serializeFields allow rest
termination_by structural fs

end

/-- Lexicographic code-unit comparison of character lists: the default
string comparison of `Array.prototype.sort` (true iff `as ≤ bs`). -/
def lexLeb : List Char → List Char → Bool
  | [], _ => true
  | _ :: _, [] => false
  | a :: as, b :: bs =>
    if a < b then true
    else if b < a then false
    else lexLeb as bs

/-- String comparison by code units (the inputs here are BMP characters,
whose UTF-16 code unit order is the code point order). -/
def strLeb (a b : String) : Bool := lexLeb a.data b.data

/-- Embedding of `Object.keys(params).sort()`: lexicographic sort of the key list.
`Array.prototype.sort` is modelled by insertion sort, which produces the
same (sorted) list. -/
def sortKeys (l : List String) : List String :=
  List.insertionSort (fun a b => strLeb a b = true) l

/-- JavaScript `ToInt32`: reduction into `[-2^31, 2^31)`. -/
def toInt32 (n : Int) : Int :=
  let m := n % 4294967296
  if m < 2147483648 then m else m - 4294967296

/-- One step of the hash loop of `Cache.generateKey`:
`hash = ((hash << 5) - hash) + char; hash = hash & hash`.
`hash << 5` coerces to int32, the sum is exact in double precision for
the values reachable here, and `hash & hash` truncates to int32. -/
def hashStep (h : Int) (c : Nat) : Int := toInt32 (toInt32 (h * 32) - h + c)

/-- The string-hash loop of `Cache.generateKey` (`charCodeAt` returns the
UTF-16 code unit; inputs here are BMP characters, whose code unit is the
code point). -/
def hashString (s : String) : Int :=
  s.data.foldl (fun h c => hashStep h c.toNat) 0

/-- The serialised parameter string of `Cache.generateKey`:
`JSON.stringify(params, Object.keys(params).sort())`. -/
def paramString (params : List (String × JSValue)) : String :=
  (serializeVal (sortKeys (params.map Prod.fst)) (.obj params)).getD ""

/-- Embedding of `Cache.generateKey(prefix, params)` from `backend/services/cache.js`
lines 17–27: serialise the parameters with the sorted key list as the
`JSON.stringify` replacer, hash the resulting string, and prepend the
prefix. -/
def Cache.generateKey (pre : String) (params : List (String × JSValue)) : String :=
  pre ++ ":" ++ toString (hashString (paramString params))

/-- A cache entry, `backend/services/cache.js` lines 52–58:
`expiresAt = Date.now() + ttlMs`, `createdAt = Date.now()`. -/
structure CacheEntry (V : Type) where
  value : V
  expiresAt : Int
  createdAt : Int
deriving Repr, DecidableEq

/-- The backing `Map` of the cache, as an association list with the
first-match lookup of a JavaScript `Map` (a real `Map` never holds two
entries with the same key; such lists satisfy `keysNodup` below). -/
abbrev CacheMap (V : Type) : Type := List (String × CacheEntry V)

/-- The method `Map.prototype.get`. -/
def mapGet {V : Type} (m : CacheMap V) (k : String) : Option (CacheEntry V) :=
  jsLookup m k

/-- The method `Map.prototype.set`: replaces the entry in place when the key is
present, appends otherwise. -/
def mapSet {V : Type} (m : CacheMap V) (k : String) (e : CacheEntry V) : CacheMap V :=
  match m with
  | [] => [(k, e)]
  | (k', e') :: rest =>
    if k' = k then (k, e) :: rest else (k', e') :: mapSet rest k e

/-- The method `Map.prototype.delete`. -/
def mapDelete {V : Type} (m : CacheMap V) (k : String) : CacheMap V :=
  match m with
  | [] => []
  | (k', e') :: rest =>
    if k' = k then rest else (k', e') :: mapDelete rest k

/-- Representation invariant of a JavaScript `Map`: no duplicate keys. -/
def keysNodup {V : Type} (m : CacheMap V) : Prop :=
  (m.map Prod.fst).Nodup

/-- The mutable state of a `Cache` instance (`this.cache`,
`this.defaultTtlMs`). -/
structure CacheState (V : Type) where
  cache : CacheMap V
  defaultTtlMs : Int

/-- Embedding of `Cache.get` (`cache.js` lines 34–44).  `now` stands for `Date.now()`.
Returns the value (or `none` on miss/expiry) together with the updated
state: an entry observed after its `expiresAt` is deleted (lazy
eviction). -/
def Cache.get {V : Type} (st : CacheState V) (now : Int) (key : String) :
    Option V × CacheState V :=
  match mapGet st.cache key with
  | none => (none, st)
  | some entry =>
    if now > entry.expiresAt then
      (none, ⟨mapDelete st.cache key, st.defaultTtlMs⟩)
    else
      (some entry.value, st)

/-- Embedding of `Cache.set` (`cache.js` lines 52–58). -/
def Cache.set {V : Type} (st : CacheState V) (now : Int) (key : String)
    (value : V) (ttlMs : Int) : CacheState V :=
  ⟨mapSet st.cache key ⟨value, now + ttlMs, now⟩, st.defaultTtlMs⟩

/-- Outcome of one `Cache.getOrCompute` call: the returned (or thrown)
value, the cache state afterwards, and whether `computeFn` was invoked. -/
structure GetOrComputeOut (E V : Type) where
  result : Except E V
  state : CacheState V
  invoked : Bool

/-- Embedding of `Cache.getOrCompute` (`cache.js` lines 67–78).  `tGet` is the clock at
the initial `this.get`, `tSet` the clock at `this.set` after `computeFn`
resolved; `computeFn` is the outcome of the compute function (`.error e`
models a throw/rejection, which propagates and stores nothing). -/
def Cache.getOrCompute {E V : Type} (st : CacheState V) (tGet tSet : Int)
    (key : String) (computeFn : Except E V) (ttlMs : Int) : GetOrComputeOut E V :=
  match Cache.get st tGet key with
  | (some cached, st') => ⟨.ok cached, st', false⟩
  | (none, st') =>
    match computeFn with
    | .error e => ⟨.error e, st', true⟩
    | .ok value => ⟨.ok value, Cache.set st' tSet key value ttlMs, true⟩

/-- Embedding of `getBackoffDelay(attempt, baseDelay, maxDelay)` from
`backend/services/grok.js` lines 92–97:
`min(baseDelay * 1.5^attempt, maxDelay)` plus a jitter of
`delay * 0.1 * Math.random()`, floored.  `rand` models the
`Math.random()` draw (`0 ≤ rand < 1`); the double-precision arithmetic is
exact at every value reachable below the cap, so `ℚ` is a faithful
model. -/
def getBackoffDelay (attempt : Nat) (baseDelay maxDelay : ℚ) (rand : ℚ) : ℤ :=
  let delay := min (baseDelay * (3 / 2 : ℚ) ^ attempt) maxDelay
  let jitter := delay * (1 / 10) * rand
  ⌊delay + jitter⌋

/-- The JSON body of one poll response of the video status endpoint, with
the fields `pollVideoStatus` inspects (`data.video?.url`, `data.url`,
`data.status`, `data.output?.url`, `data.error`, `data.message`).
`none` models an absent field. -/
structure PollData where
  videoUrl : Option String
  url : Option String
  status : Option String
  outputUrl : Option String
  error : Option String
  message : Option String

/-- One poll attempt's observable outcome of `fetch`:
an HTTP error status (`!response.ok`), a thrown network/parse error, or a
JSON body. -/
inductive PollResponse where
  | httpError (status : Nat)
  | networkError
  | json (data : PollData)

/-- JavaScript truthiness of a string-or-absent field (`undefined`/`null`
and the empty string are falsy). -/
def truthy : Option String → Bool
  | none => false
  | some s => s ≠ ""

/-- Control-flow result of one iteration of the polling loop. -/
inductive PollStep where
  | done (url : String)
  | fail (msg : String)
  | retry

/-- The body of one iteration of `GrokClient.pollVideoStatus`
(`grok.js` lines 539–589): HTTP errors — including 429 rate limits — and
network errors `continue`; a truthy `video.url`, `url`, or
`status === 'completed' && output.url` returns; `status === 'failed'` or a
truthy `error` field throws (and is re-thrown by the catch clause because
the message starts with `Video generation failed`); anything else
continues. -/
def pollStep : PollResponse → PollStep
  | .httpError _ => .retry
  | .networkError => .retry
  | .json d =>
    if truthy d.videoUrl then .done (d.videoUrl.getD "")
    else if truthy d.url then .done (d.url.getD "")
    else if d.status == some "completed" && truthy d.outputUrl then
      .done (d.outputUrl.getD "")
    else if d.status == some "failed" || truthy d.error then
      .fail ("Video generation failed: " ++
        (if truthy d.error then d.error.getD ""
         else if truthy d.message then d.message.getD "" else "unknown"))
    else .retry

/-- Overall outcome of a polling run. -/
inductive PollOutcome where
  | completed (url : String)
  | failed (msg : String)
  | timeout
deriving DecidableEq, Repr

/-- The polling loop from iteration `i` with `fuel` remaining attempts;
returns the outcome and the index one past the last attempt performed.
When the attempt budget is exhausted the code throws
`Video generation timeout after maximum polling attempts`. -/
def pollFrom (responses : Nat → PollResponse) (i : Nat) : Nat → PollOutcome × Nat
  | 0 => (.timeout, i)
  | fuel + 1 =>
    match pollStep (responses i) with
    | .done u => (.completed u, i + 1)
    | .fail m => (.failed m, i + 1)
    | .retry => pollFrom responses (i + 1) fuel

/-- Embedding of `GrokClient.pollVideoStatus(requestId, maxAttempts)` (`grok.js` lines
529–592), abstracted over the stream of poll responses: attempt `n`
observes `responses n`. -/
def GrokClient.pollVideoStatus (responses : Nat → PollResponse)
    (maxAttempts : Nat) : PollOutcome × Nat :=
  pollFrom responses 0 maxAttempts

/-- The value resolved by the video branch
(`GrokClient.generateVideo` → `{ videoUrl, duration }`). -/
structure VideoResult where
  videoUrl : String
  duration : Int
deriving DecidableEq, Repr

/-- The value returned by `GrokClient.generateThumbnail`
(`{ thumbnailUrl }`, possibly with `isDemo: true`). -/
structure ThumbnailResult where
  thumbnailUrl : Option String
  isDemo : Bool
deriving DecidableEq, Repr

/-- Observable outcome of the `fetch` to the image-generation endpoint
inside `generateThumbnail`: a thrown network error, a non-ok HTTP
response, or an ok response whose body may or may not carry
`data.data[0].url`. -/
inductive ThumbFetch where
  | networkError
  | httpError (body : String)
  | ok (url : Option String)

/-- Embedding of `GrokClient.generateThumbnail(prompt)` from the unnamed `GrokClient`
source file, lines 190–221: on a non-ok response or a thrown error it
returns the sentinel `{ thumbnailUrl: null, isDemo: true }` instead of
raising; on success it returns `{ thumbnailUrl: data.data?.[0]?.url }`. -/
def GrokClient.generateThumbnail : ThumbFetch → ThumbnailResult
  | .networkError => ⟨none, true⟩
  | .httpError _ => ⟨none, true⟩
  | .ok url => ⟨url, false⟩

/-- The standard (non-cohesive) media-generation phase of `POST /`
(`routes/beef.js` lines 1100–1143 plus the `thumbnail_url` field of the
response, line 1153).  The two `Promise.allSettled` branches are passed in
as their settled outcomes (`.error` = rejected with that reason message).
The phase fails — with `Video generation failed: ` prefixed to the video
branch's message (`videoResult.reason?.message || 'Unknown error'`) —
exactly when the video branch rejected; a rejected thumbnail branch only
nulls the response's `thumbnail_url` (as does a falsy `thumbnailUrl`
inside a fulfilled thumbnail value, via `thumbnail?.thumbnailUrl ||
null`). -/
def mediaPhase (videoResult : Except String VideoResult)
    (thumbnailResult : Except String ThumbnailResult) :
    Except String (VideoResult × Option String) :=
  match videoResult with
  | .error reasonMsg =>
    .error ("Video generation failed: " ++
      (if reasonMsg = "" then "Unknown error" else reasonMsg))
  | .ok video =>
    let thumbnailUrl :=
      match thumbnailResult with
      | .ok thumb =>
        match thumb.thumbnailUrl with
        | some u => if u = "" then none else some u
        | none => none
      | .error _ => none
    .ok (video, thumbnailUrl)

/-- Result of the cohesive (thumbnail-seeded) generation chain: the video
plus the thumbnail that seeded it, when the chain succeeded. -/
structure CohesiveResult where
  videoUrl : String
  duration : Int
  thumbnailUrl : Option String
deriving DecidableEq, Repr

/-- Modelled from the spec: `GrokClient.generateCohesiveVideo` is invoked
by the `use_cohesive_video` branch of `routes/beef.js` (line 1089) but its
implementation is not present under `src/` (the `GrokClient` of
`services/grok.js` does not define it).  Spec §4.4: the cohesive mode
"changes step 3 into a strictly sequential two-call chain: generate
thumbnail first, then use it as the seed image for media generation,
falling back to the standard independent-prompt media generation if
either sub-step fails."  The three arguments are the outcomes of the
thumbnail sub-step, of the image-seeded video sub-step, and of the
standard independent-prompt generation used as the fallback. -/
def GrokClient.generateCohesiveVideo
    (thumbnailOutcome : Except String String)
    (seededVideoOutcome : Except String VideoResult)
    (fallbackVideoOutcome : Except String VideoResult) :
    Except String CohesiveResult :=
  let fallback : Except String CohesiveResult :=
    match fallbackVideoOutcome with
    | .error e => .error e
    | .ok v => .ok ⟨v.videoUrl, v.duration, none⟩
  match thumbnailOutcome with
  | .error _ => fallback
  | .ok thumbUrl =>
    match seededVideoOutcome with
    | .error _ => fallback
    | .ok v => .ok ⟨v.videoUrl, v.duration, some thumbUrl⟩

/-- One item of the `POST /batch` body (`tweets[i]`); `none` models an
absent field. -/
structure BatchTweet where
  tweet_id : Option String
  tweet_text : Option String
  author : Option String
deriving DecidableEq, Repr

/-- The storyline fields the batch media phase reads
(`storyline.title`, `storyline.storyline`, `storyline.videoPrompt`). -/
structure StorylineData where
  title : Option String
  storyline : Option String
  videoPrompt : Option String
deriving DecidableEq, Repr

/-- One element of the `POST /batch` result array.  Validation and
storyline failures produce an `{error, index}` record (the storyline
failure also carries the original tweet); a processed item carries the
media fields, with `error: 'Video generation failed'` when its video
branch rejected (`routes/beef.js` lines 1210–1269). -/
structure BatchRec where
  error : Option String
  index : Nat
  tweet : Option BatchTweet
  tweet_id : Option String
  title : Option String
  storyline : Option String
  video_url : Option String
  thumbnail_url : Option String
  duration : Option Int
deriving DecidableEq, Repr

/-- Outcome of the storyline phase for one batch item
(`routes/beef.js` lines 1210–1227): a validation error record, a caught
storyline error record, or the storyline with its tweet. -/
inductive ItemPhase1 where
  | invalid (index : Nat)
  | failedStoryline (msg : String) (tweet : BatchTweet) (index : Nat)
  | ok (storyline : StorylineData) (tweet : BatchTweet) (index : Nat)
deriving DecidableEq, Repr

/-- The storyline phase for one batch item: items missing a truthy
`tweet_text` or `author` are rejected per-item; a throwing
`generateStoryline` is caught and recorded (`storylineOf` is the outcome
of the cached storyline computation for this index). -/
def batchItemPhase1 (storylineOf : Nat → Except String StorylineData)
    (i : Nat) (t : BatchTweet) : ItemPhase1 :=
  if !truthy t.tweet_text || !truthy t.author then .invalid i
  else
    match storylineOf i with
    | .error e => .failedStoryline e t i
    | .ok s => .ok s t i

/-- The loop `tweets.map((tweet, index) => ...)` of the storyline phase. -/
def batchPhase1 (storylineOf : Nat → Except String StorylineData) :
    Nat → List BatchTweet → List ItemPhase1
  | _, [] => []
  | i, t :: ts => batchItemPhase1 storylineOf i t :: batchPhase1 storylineOf (i + 1) ts

/-- The media phase for one batch item (`routes/beef.js` lines
1234–1268): error records pass through; otherwise video and thumbnail
settle independently and the record is built with `|| null` coercions
(`video?.videoUrl || null`, `thumbnail?.thumbnailUrl || null`,
`video?.duration || null`) and `error: !video ? 'Video generation
failed' : null`. -/
def batchItemPhase2 (videoOf : Nat → Except String VideoResult)
    (thumbOf : Nat → Except String ThumbnailResult) : ItemPhase1 → BatchRec
  | .invalid i =>
    ⟨some "tweet_text and author are required", i, none, none, none, none, none, none, none⟩
  | .failedStoryline e t i =>
    ⟨some e, i, some t, none, none, none, none, none, none⟩
  | .ok s t i =>
    let video : Option VideoResult :=
      match videoOf i with
      | .ok v => some v
      | .error _ => none
    let thumbnail : Option ThumbnailResult :=
      match thumbOf i with
      | .ok th => some th
      | .error _ => none
    let videoUrl : Option String :=
      match video with
      | some v => if v.videoUrl = "" then none else some v.videoUrl
      | none => none
    let thumbnailUrl : Option String :=
      match thumbnail with
      | some th =>
        match th.thumbnailUrl with
        | some u => if u = "" then none else some u
        | none => none
      | none => none
    let duration : Option Int :=
      match video with
      | some v => if v.duration = 0 then none else some v.duration
      | none => none
    ⟨(if video.isNone then some "Video generation failed" else none), i,
      none, t.tweet_id, s.title, s.storyline, videoUrl, thumbnailUrl, duration⟩

/-- Embedding of `POST /batch` (`routes/beef.js` lines 1186–1290), abstracted over the
per-item outcomes of the storyline, video and thumbnail computations.
`tweets = none` models a body whose `tweets` is not an array.  A `.error`
result is the endpoint's HTTP-400 validation response, produced before
any per-item work; `.ok` carries the result array. -/
def batchEndpoint (tweets : Option (List BatchTweet))
    (storylineOf : Nat → Except String StorylineData)
    (videoOf : Nat → Except String VideoResult)
    (thumbOf : Nat → Except String ThumbnailResult) :
    Except (Nat × String) (List BatchRec) :=
  match tweets with
  | none => .error (400, "tweets array is required")
  | some ts =>
    if ts.length = 0 then .error (400, "tweets array is required")
    else if ts.length > 5 then .error (400, "Batch size exceeds maximum of 5")
    else .ok ((batchPhase1 storylineOf 0 ts).map (batchItemPhase2 videoOf thumbOf))

/-- Read a property of a parsed JSON object (`parsed.scenes` etc.);
`none` models `undefined`. -/
def getField (fs : List (String × JSValue)) (k : String) : Option JSValue :=
  jsLookup fs k

/-- JavaScript property assignment `obj[k] = v`: overwrites in place when
present, appends otherwise. -/
def setField (fs : List (String × JSValue)) (k : String) (v : JSValue) :
    List (String × JSValue) :=
  match fs with
  | [] => [(k, v)]
  | (k', v') :: rest =>
    if k' = k then (k, v) :: rest else (k', v') :: setField rest k v

/-- JavaScript truthiness of a possibly-absent value (`!parsed.scenes`). -/
def jsTruthy : Option JSValue → Bool
  | none => false
  | some .null => false
  | some .undef => false
  | some (.bool b) => b
  | some (.num n) => n ≠ 0
  | some (.str s) => s ≠ ""
  | some (.arr _) => true
  | some (.obj _) => true

/-- JavaScript `Array.isArray` on a possibly-absent value. -/
def isJSArray : Option JSValue → Bool
  | some (.arr _) => true
  | _ => false

/-- The normalisation applied to a successfully parsed storyline object
(`grok.js` lines 267–274): when `!parsed.scenes || !Array.isArray(parsed.scenes)`,
`parsed.scenes = [parsed.videoPrompt]`; then
`parsed.classification = classification`. -/
def normalizeParsedStoryline (parsed : List (String × JSValue))
    (classification : String) : List (String × JSValue) :=
  let scenes := getField parsed "scenes"
  let parsed' :=
    if !jsTruthy scenes || !isJSArray scenes then
      setField parsed "scenes" (.arr [(getField parsed "videoPrompt").getD .undef])
    else parsed
  setField parsed' "classification" (.str classification)

/-- The fallback storyline of `generateStoryline` (`grok.js` lines
281–299), returned when no JSON object could be extracted from the model
response (or `JSON.parse` threw): the `content || '...'` defaults are the
JavaScript falsy-string coercions. -/
def fallbackStoryline (classification content narratorName : String) :
    List (String × JSValue) :=
  if classification = "no_slop" then
    [("title", .str "Breaking Tech News"),
     ("storyline", .str (if content = "" then
        "Breaking news. This is interesting. Emailing the team now." else content)),
     ("narrator", .str "Elon Musk"),
     ("videoPrompt", .str "Elon Musk as news anchor at professional desk, speaking to camera"),
     ("scenes", .arr [.str "Elon Musk at news desk speaking"]),
     ("classification", .str "no_slop")]
  else
    [("title", .str "Trash Opinion Alert"),
     ("storyline", .str (if content = "" then
        "This opinion is absolute garbage. Straight to the trash." else content)),
     ("narrator", .str narratorName),
     ("videoPrompt", .str (narratorName ++ " holding paper, disgusted, throws in trash bin")),
     ("scenes", .arr [.str (narratorName ++ " throwing paper in garbage")]),
     ("classification", .str "slop")]

/-- The result-construction tail of `GrokClient.generateStoryline`
(`grok.js` lines 264–299), abstracted over the outcome of the
`/\x7b[\s\S]*\x7d/` match plus `JSON.parse` (`parseOutcome = some parsed`
when a JSON object was extracted, `none` when the regex missed or the
parse threw), the raw `content` string, the classification, and the
pseudo-randomly chosen character name used by the slop branch. -/
def GrokClient.generateStoryline (parseOutcome : Option (List (String × JSValue)))
    (content classification narratorName : String) : List (String × JSValue) :=
  match parseOutcome with
  | some parsed => normalizeParsedStoryline parsed classification
  | none => fallbackStoryline classification content narratorName

/-- The length of the `scenes` field of a storyline result, when that
field is an array (`none` when absent or not an array). -/
def scenesLength (fs : List (String × JSValue)) : Option Nat :=
  match getField fs "scenes" with
  | some (.arr l) => some l.length
  | _ => none

/-! ### Map lemmas for the cache claims -/

theorem mapGet_mapSet_self {V : Type} (m : CacheMap V) (k : String) (e : CacheEntry V) :
    mapGet (mapSet m k e) k = some e := by
  induction m with
  | nil => simp [mapSet, mapGet, jsLookup]
  | cons p rest ih =>
    obtain ⟨k', e'⟩ := p
    by_cases h : k' = k
    · simp [mapSet, mapGet, jsLookup, h]
    · simpa [mapSet, mapGet, jsLookup, h] using ih

theorem mapGet_eq_none_of_not_mem {V : Type} (m : CacheMap V) (k : String)
    (h : k ∉ m.map Prod.fst) : mapGet m k = none := by
  induction m with
  | nil => rfl
  | cons p rest ih =>
    obtain ⟨k', e'⟩ := p
    simp only [List.map_cons, List.mem_cons] at h
    push_neg at h
    have hne : ¬ k' = k := fun hh => h.1 hh.symm
    simp only [mapGet, jsLookup, if_neg hne]
    exact ih h.2

theorem mapDelete_mapSet_of_none {V : Type} (m : CacheMap V) (k : String)
    (e : CacheEntry V) (h : mapGet m k = none) : mapDelete (mapSet m k e) k = m := by
  induction m with
  | nil => simp [mapSet, mapDelete]
  | cons p rest ih =>
    obtain ⟨k', e'⟩ := p
    by_cases hk : k' = k
    · simp [mapGet, jsLookup, hk] at h
    · simp only [mapGet, jsLookup, if_neg hk] at h
      simp [mapSet, mapDelete, hk, ih h]

theorem mapGet_mapDelete_self {V : Type} (m : CacheMap V) (k : String)
    (h : keysNodup m) : mapGet (mapDelete m k) k = none := by
  induction m with
  | nil => rfl
  | cons p rest ih =>
    obtain ⟨k', e'⟩ := p
    simp only [keysNodup, List.map_cons, List.nodup_cons] at h
    by_cases hk : k' = k
    · subst hk
      simpa [mapDelete] using mapGet_eq_none_of_not_mem rest k' h.1
    · simp only [mapDelete, if_neg hk, mapGet, jsLookup]
      exact ih h.2

/-- C1: with a fresh key, a first `getOrCompute` invokes the compute
function and caches the value; a second call whose `get` happens while
the entry's TTL has not yet elapsed returns the cached value without
invoking its compute function; a third call after the TTL elapsed
observes the stale entry — `get` removes it and reports a miss — and
invokes its compute function again, so compute ran exactly twice over the
three calls. -/
theorem getOrCompute_ttl_lifecycle {V : Type} (st0 : CacheState V) (key : String)
    (ttl t1 t1' t2 t2' t3 t3' : Int) (v1 v2 v3 : V)
    (r1 r2 r3 : GetOrComputeOut String V)
    (h0 : mapGet st0.cache key = none)
    (h2 : t2 ≤ t1' + ttl) (h3 : t1' + ttl < t3)
    (hr1 : r1 = Cache.getOrCompute st0 t1 t1' key (Except.ok v1) ttl)
    (hr2 : r2 = Cache.getOrCompute r1.state t2 t2' key (Except.ok v2) ttl)
    (hr3 : r3 = Cache.getOrCompute r2.state t3 t3' key (Except.ok v3) ttl) :
    r1.invoked = true ∧ r1.result = Except.ok v1 ∧
    r2.invoked = false ∧ r2.result = Except.ok v1 ∧
    r3.invoked = true ∧ r3.result = Except.ok v3 ∧
    (Cache.get r2.state t3 key).1 = none ∧
    mapGet (Cache.get r2.state t3 key).2.cache key = none := by
  have hg1 : Cache.get st0 t1 key = (none, st0) := by
    simp [Cache.get, h0]
  have hr1' : r1 = ⟨Except.ok v1, Cache.set st0 t1' key v1 ttl, true⟩ := by
    rw [hr1]; simp [Cache.getOrCompute, hg1]
  have hentry : mapGet (Cache.set st0 t1' key v1 ttl).cache key
      = some ⟨v1, t1' + ttl, t1'⟩ := by
    simp [Cache.set, mapGet_mapSet_self]
  have hg2 : Cache.get (Cache.set st0 t1' key v1 ttl) t2 key
      = (some v1, Cache.set st0 t1' key v1 ttl) := by
    simp [Cache.get, hentry, not_lt.mpr h2]
  have hr2' : r2 = ⟨Except.ok v1, Cache.set st0 t1' key v1 ttl, false⟩ := by
    rw [hr2, hr1']; simp [Cache.getOrCompute, hg2]
  have hg3 : Cache.get (Cache.set st0 t1' key v1 ttl) t3 key
      = (none, ⟨mapDelete (Cache.set st0 t1' key v1 ttl).cache key,
          (Cache.set st0 t1' key v1 ttl).defaultTtlMs⟩) := by
    simp [Cache.get, hentry, h3]
  have hr3' : r3.invoked = true ∧ r3.result = Except.ok v3 := by
    rw [hr3, hr2']; simp [Cache.getOrCompute, hg3]
  refine ⟨by rw [hr1'], by rw [hr1'], by rw [hr2'], by rw [hr2'], hr3'.1, hr3'.2, ?_, ?_⟩
  · rw [hr2', hg3]
  · rw [hr2', hg3]
    simp only [Cache.set]
    rw [mapDelete_mapSet_of_none st0.cache key _ h0]
    exact h0

/-- Witness for C1: a concrete run (ttl 1000, calls at clocks 0, 500,
2000) in which the second call does not invoke compute and the third
does, with the stale entry gone. -/
theorem getOrCompute_ttl_lifecycle_witness :
    mapGet ([] : CacheMap Int) "k" = none ∧ (500 : Int) ≤ 0 + 1000 ∧ (0 : Int) + 1000 < 2000 ∧
    ((Cache.getOrCompute (Cache.getOrCompute (⟨[], 300000⟩ : CacheState Int) 0 0 "k"
        (Except.ok (ε := String) 1) 1000).state 500 500 "k"
        (Except.ok (ε := String) 5) 1000).invoked = false ∧
      (Cache.getOrCompute (Cache.getOrCompute (⟨[], 300000⟩ : CacheState Int) 0 0 "k"
        (Except.ok (ε := String) 1) 1000).state 500 500 "k"
        (Except.ok (ε := String) 5) 1000).result = Except.ok 1 ∧
      (Cache.getOrCompute (Cache.getOrCompute (Cache.getOrCompute
        (⟨[], 300000⟩ : CacheState Int) 0 0 "k" (Except.ok (ε := String) 1) 1000).state
        500 500 "k" (Except.ok (ε := String) 5) 1000).state 2000 2000 "k"
        (Except.ok (ε := String) 7) 1000).invoked = true) := by
  have h := getOrCompute_ttl_lifecycle (⟨[], 300000⟩ : CacheState Int) "k"
    1000 0 0 500 500 2000 2000 1 5 7 _ _ _ rfl (by decide) (by decide) rfl rfl rfl
  exact ⟨rfl, by decide, by decide, h.2.2.1, h.2.2.2.1, h.2.2.2.2.1⟩

/-- Counterexample to C2 as stated: the cache state is NOT always
unchanged when the compute function throws.  Concretely, with an already
expired entry under the key (`expiresAt = 10`, clock `20`), the erroring
`getOrCompute` propagates the error, stores nothing — but the initial
`get` has lazily evicted the stale entry, so the state differs from the
input state. -/
theorem getOrCompute_error_changes_state :
    (Cache.getOrCompute (⟨[("k", ⟨0, 10, 0⟩)], 300000⟩ : CacheState Int) 20 20 "k"
      (Except.error "boom" : Except String Int) 100).result = Except.error "boom" ∧
    (Cache.getOrCompute (⟨[("k", ⟨0, 10, 0⟩)], 300000⟩ : CacheState Int) 20 20 "k"
      (Except.error "boom" : Except String Int) 100).state.cache = [] ∧
    ([("k", (⟨0, 10, 0⟩ : CacheEntry Int))] : CacheMap Int) ≠ [] := by
  refine ⟨rfl, rfl, by simp⟩

/-- C2 (amended): when the compute function throws on a miss,
`getOrCompute` propagates the error, invokes compute (exactly once),
leaves nothing stored under the key, and leaves the cache unchanged
except that an already-expired entry under the key has been lazily
evicted by the lookup; consequently any subsequent `getOrCompute` with
the same key misses again and re-invokes its compute function. -/
theorem getOrCompute_error_propagates_no_store {E V : Type} (st : CacheState V)
    (tGet tSet : Int) (key : String) (e : E) (ttl : Int)
    (r : GetOrComputeOut E V)
    (hw : keysNodup st.cache)
    (hmiss : (Cache.get st tGet key).1 = none)
    (hr : r = Cache.getOrCompute st tGet tSet key (Except.error e) ttl) :
    r.result = Except.error e ∧ r.invoked = true ∧
    mapGet r.state.cache key = none ∧
    (r.state = st ∨ r.state.cache = mapDelete st.cache key) ∧
    (∀ (fn : Except E V) (t t' : Int),
      (Cache.getOrCompute r.state t t' key fn ttl).invoked = true) := by
  have hget : Cache.get st tGet key = (none, (Cache.get st tGet key).2) := by
    rw [← hmiss]
  have hr' : r = ⟨Except.error e, (Cache.get st tGet key).2, true⟩ := by
    rw [hr]
    unfold Cache.getOrCompute
    rw [hget]
  have hkey : mapGet (Cache.get st tGet key).2.cache key = none ∧
      ((Cache.get st tGet key).2 = st ∨
        (Cache.get st tGet key).2.cache = mapDelete st.cache key) := by
    cases hm : mapGet st.cache key with
    | none =>
      have hst : Cache.get st tGet key = (none, st) := by simp [Cache.get, hm]
      rw [hst]
      exact ⟨hm, Or.inl rfl⟩
    | some entry =>
      by_cases hexp : tGet > entry.expiresAt
      · have hst : Cache.get st tGet key
            = (none, ⟨mapDelete st.cache key, st.defaultTtlMs⟩) := by
          simp [Cache.get, hm, hexp]
        rw [hst]
        exact ⟨mapGet_mapDelete_self st.cache key hw, Or.inr rfl⟩
      · have hst : Cache.get st tGet key = (some entry.value, st) := by
          simp [Cache.get, hm, hexp]
        rw [hst] at hmiss
        simp at hmiss
  refine ⟨by rw [hr'], by rw [hr'], by rw [hr']; exact hkey.1, by rw [hr']; exact hkey.2, ?_⟩
  intro fn t t'
  have hg2 : Cache.get r.state t key = (none, r.state) := by
    unfold Cache.get
    rw [hr']
    simp [hkey.1]
  unfold Cache.getOrCompute
  rw [hg2]
  cases fn <;> rfl

/-- Witness for C2's amended theorem: a concrete erroring call on an
empty cache propagates the error and a repeat call re-invokes compute. -/
theorem getOrCompute_error_propagates_no_store_witness :
    keysNodup ([] : CacheMap Int) ∧
    (Cache.get (⟨[], 300000⟩ : CacheState Int) 0 "k").1 = none ∧
    ((Cache.getOrCompute (⟨[], 300000⟩ : CacheState Int) 0 0 "k"
        (Except.error "boom" : Except String Int) 100).result = Except.error "boom" ∧
      (Cache.getOrCompute (⟨[], 300000⟩ : CacheState Int) 0 0 "k"
        (Except.error "boom" : Except String Int) 100).invoked = true ∧
      (Cache.getOrCompute ((Cache.getOrCompute (⟨[], 300000⟩ : CacheState Int) 0 0 "k"
        (Except.error "boom" : Except String Int) 100).state) 5 5 "k"
        (Except.error "boom" : Except String Int) 100).invoked = true) := by
  have h := getOrCompute_error_propagates_no_store (⟨[], 300000⟩ : CacheState Int)
    0 0 "k" "boom" 100 _ (by simp [keysNodup]) rfl rfl
  exact ⟨by simp [keysNodup], rfl, h.1, h.2.1, h.2.2.2.2 (Except.error "boom") 5 5⟩

/-- Counterexample to C5 as stated: the code's multiplier is 1.5, not 2.
At attempt 1 with base 1000 and cap 30000 and no jitter the delay is
1500, not the 2000 the claimed doubling schedule predicts. -/
theorem getBackoffDelay_not_doubling :
    getBackoffDelay 1 1000 30000 0 = 1500 ∧ (1500 : ℤ) ≠ 2000 := by
  constructor
  · simp only [getBackoffDelay]
    norm_num
  · decide

/-- C5 (amended): the poller's delay for attempt `n` is
`min(base * 1.5^n, cap)` plus a jitter addition of up to 10% of the
computed delay (`delay * 0.1 * Math.random()`), floored; the poller calls
`getBackoffDelay(attempt, 1000, 10000)`, and without jitter attempts 0..6
yield 1000, 1500, 2250, 3375, 5062, 7593, 10000. -/
theorem getBackoffDelay_schedule (attempt : Nat) (base cap r : ℚ)
    (hb : 0 ≤ base) (hc : 0 ≤ cap) (hr0 : 0 ≤ r) (hr1 : r < 1) :
    getBackoffDelay attempt base cap 0 = ⌊min (base * (3 / 2 : ℚ) ^ attempt) cap⌋ ∧
    ⌊min (base * (3 / 2 : ℚ) ^ attempt) cap⌋ ≤ getBackoffDelay attempt base cap r ∧
    getBackoffDelay attempt base cap r
      ≤ ⌊min (base * (3 / 2 : ℚ) ^ attempt) cap * (11 / 10)⌋ ∧
    (List.range 7).map (fun n => getBackoffDelay n 1000 10000 0)
      = [1000, 1500, 2250, 3375, 5062, 7593, 10000] := by
  have hd : (0 : ℚ) ≤ min (base * (3 / 2 : ℚ) ^ attempt) cap :=
    le_min (mul_nonneg hb (pow_nonneg (by norm_num) _)) hc
  refine ⟨?_, ?_, ?_, ?_⟩
  · simp only [getBackoffDelay]
    norm_num
  · simp only [getBackoffDelay]
    apply Int.floor_mono
    nlinarith [mul_nonneg (mul_nonneg hd (by norm_num : (0:ℚ) ≤ 1 / 10)) hr0]
  · simp only [getBackoffDelay]
    apply Int.floor_mono
    nlinarith [hd, hr0, hr1]
  · have h0 : getBackoffDelay 0 1000 10000 0 = 1000 := by
      simp only [getBackoffDelay]; norm_num
    have h1 : getBackoffDelay 1 1000 10000 0 = 1500 := by
      simp only [getBackoffDelay]; norm_num
    have h2 : getBackoffDelay 2 1000 10000 0 = 2250 := by
      simp only [getBackoffDelay]; norm_num
    have h3 : getBackoffDelay 3 1000 10000 0 = 3375 := by
      simp only [getBackoffDelay]; norm_num
    have h4 : getBackoffDelay 4 1000 10000 0 = 5062 := by
      simp only [getBackoffDelay]; norm_num [Int.floor_eq_iff]
    have h5 : getBackoffDelay 5 1000 10000 0 = 7593 := by
      simp only [getBackoffDelay]; norm_num [Int.floor_eq_iff]
    have h6 : getBackoffDelay 6 1000 10000 0 = 10000 := by
      simp only [getBackoffDelay]; norm_num
    have hrange : List.range 7 = [0, 1, 2, 3, 4, 5, 6] := by rfl
    rw [hrange]
    simp [h0, h1, h2, h3, h4, h5, h6]

/-- Witness for C5's amended theorem at attempt 4, base 1000, cap 10000,
jitter draw 1/2. -/
theorem getBackoffDelay_schedule_witness :
    (0 : ℚ) ≤ 1000 ∧ (0 : ℚ) ≤ 10000 ∧ (0 : ℚ) ≤ 1 / 2 ∧ (1 / 2 : ℚ) < 1 ∧
    (getBackoffDelay 4 1000 10000 0 = ⌊min ((1000 : ℚ) * (3 / 2 : ℚ) ^ (4 : Nat)) 10000⌋ ∧
      ⌊min ((1000 : ℚ) * (3 / 2 : ℚ) ^ (4 : Nat)) 10000⌋ ≤ getBackoffDelay 4 1000 10000 (1 / 2) ∧
      getBackoffDelay 4 1000 10000 (1 / 2)
        ≤ ⌊min ((1000 : ℚ) * (3 / 2 : ℚ) ^ (4 : Nat)) 10000 * (11 / 10)⌋) := by
  have h := getBackoffDelay_schedule 4 1000 10000 (1 / 2)
    (by norm_num) (by norm_num) (by norm_num) (by norm_num)
  exact ⟨by norm_num, by norm_num, by norm_num, by norm_num, h.1, h.2.1, h.2.2.1⟩

/-- Iterations whose response continues the loop are skipped without
changing the eventual result: the loop advances from attempt `i` to
attempt `i + k` consuming `k` units of the attempt budget. -/
theorem pollFrom_skip (responses : Nat → PollResponse) :
    ∀ (k i fuel : Nat), k ≤ fuel →
    (∀ j, j < k → pollStep (responses (i + j)) = .retry) →
    pollFrom responses i fuel = pollFrom responses (i + k) (fuel - k) := by
  intro k
  induction k with
  | zero => intro i fuel _ _; simp
  | succ k ih =>
    intro i fuel hk hcont
    cases fuel with
    | zero => omega
    | succ f =>
      have h0 : pollStep (responses i) = .retry := by
        have := hcont 0 (Nat.succ_pos k)
        simpa using this
      have hstep : pollFrom responses i (f + 1) = pollFrom responses (i + 1) f := by
        simp only [pollFrom, h0]
      rw [hstep]
      have hcont' : ∀ j, j < k → pollStep (responses (i + 1 + j)) = .retry := by
        intro j hj
        have := hcont (j + 1) (by omega)
        have harith : i + (j + 1) = i + 1 + j := by omega
        rwa [harith] at this
      have := ih (i + 1) f (by omega) hcont'
      rw [this]
      have h1 : i + 1 + k = i + (k + 1) := by omega
      have h2 : f - k = f + 1 - (k + 1) := by omega
      rw [h1, h2]

/-- C4: (1) if the first `i` poll responses all continue the loop and
attempt `i` carries an explicit failed status or error field, the poller
raises that failure having used exactly `i + 1` attempts of its budget —
in particular a failure on the first poll raises immediately; (2, 3) HTTP
error responses, including 429 rate limits, are not failures — they
continue the loop; (4) when every response within the budget continues
the loop, the exhausted poller raises the timeout error having used all
`n` attempts; (5) a body with `status: 'failed'` and
`error: 'policy violation'` is a failure response with that message. -/
theorem pollVideoStatus_failure_transient_timeout :
    (∀ (responses : Nat → PollResponse) (n i : Nat) (m : String),
      i < n → (∀ j, j < i → pollStep (responses j) = .retry) →
      pollStep (responses i) = .fail m →
      GrokClient.pollVideoStatus responses n = (.failed m, i + 1)) ∧
    (∀ s, pollStep (.httpError s) = .retry) ∧
    pollStep (.httpError 429) = .retry ∧
    (∀ (responses : Nat → PollResponse) (n : Nat),
      (∀ j, j < n → pollStep (responses j) = .retry) →
      GrokClient.pollVideoStatus responses n = (.timeout, n)) ∧
    pollStep (.json ⟨none, none, some "failed", none, some "policy violation", none⟩)
      = .fail "Video generation failed: policy violation" := by
  refine ⟨?_, fun s => rfl, rfl, ?_, rfl⟩
  · intro responses n i m hi hcont hfail
    unfold GrokClient.pollVideoStatus
    have hskip := pollFrom_skip responses i 0 n (by omega)
      (by intro j hj; simpa using hcont j hj)
    simp only [Nat.zero_add] at hskip
    rw [hskip]
    cases hni : n - i with
    | zero => omega
    | succ f => simp only [pollFrom, hfail]
  · intro responses n hcont
    unfold GrokClient.pollVideoStatus
    have hskip := pollFrom_skip responses n 0 n (le_refl n)
      (by intro j hj; simpa using hcont j hj)
    simp only [Nat.zero_add, Nat.sub_self] at hskip
    rw [hskip]
    rfl

/-- Witness for C4: a stream that reports `status:'failed'` with
`error:'policy violation'` on the first poll fails immediately, consuming
one attempt of a 60-attempt budget; a stream of nothing but 429 responses
times out after all 60 attempts. -/
theorem pollVideoStatus_failure_transient_timeout_witness :
    GrokClient.pollVideoStatus
      (fun _ => .json ⟨none, none, some "failed", none, some "policy violation", none⟩) 60
      = (.failed "Video generation failed: policy violation", 1) ∧
    GrokClient.pollVideoStatus (fun _ => .httpError 429) 60 = (.timeout, 60) := by
  refine ⟨?_, ?_⟩
  · exact pollVideoStatus_failure_transient_timeout.1 _ 60 0 _ (by decide)
      (fun j hj => absurd hj (Nat.not_lt_zero j)) rfl
  · exact pollVideoStatus_failure_transient_timeout.2.2.2.1 _ 60 (fun j hj => rfl)

/-- C3: in the standard media phase, a rejected thumbnail branch still
yields success with a null thumbnail URL; a rejected video branch fails
the whole phase with an error carrying the video failure's message
(`Video generation failed: ` + reason, `Unknown error` when the reason
message is empty); the phase succeeds if and only if the video branch
succeeded; and `generateThumbnail` itself converts its failures into the
`thumbnailUrl: null` sentinel rather than rejecting. -/
theorem mediaPhase_video_mandatory_thumbnail_optional :
    (∀ (v : VideoResult) (t : String),
      mediaPhase (.ok v) (.error t) = .ok (v, none)) ∧
    (∀ (e : String) (tr : Except String ThumbnailResult),
      mediaPhase (.error e) tr
        = .error ("Video generation failed: " ++
            (if e = "" then "Unknown error" else e))) ∧
    (∀ (vr : Except String VideoResult) (tr : Except String ThumbnailResult),
      (mediaPhase vr tr).isOk = vr.isOk) ∧
    (GrokClient.generateThumbnail .networkError).thumbnailUrl = none ∧
    (∀ b, (GrokClient.generateThumbnail (.httpError b)).thumbnailUrl = none) := by
  refine ⟨fun v t => rfl, fun e tr => rfl, fun vr tr => ?_, rfl, fun b => rfl⟩
  cases vr <;> rfl

/-- C9 (against the spec-modelled `generateCohesiveVideo`): the chain is
strictly sequential — when the thumbnail sub-step fails, the result does
not depend on the seeded-video sub-step at all (it is never consulted) —
and a failure of either sub-step falls back to the standard
independent-prompt generation instead of failing the request; when both
sub-steps succeed, the thumbnail seeds the video and is returned with
it. -/
theorem generateCohesiveVideo_sequential_fallback :
    (∀ (e : String) (s₁ s₂ fb : Except String VideoResult),
      GrokClient.generateCohesiveVideo (.error e) s₁ fb
        = GrokClient.generateCohesiveVideo (.error e) s₂ fb) ∧
    (∀ (e : String) (s : Except String VideoResult) (v : VideoResult),
      GrokClient.generateCohesiveVideo (.error e) s (.ok v)
        = .ok ⟨v.videoUrl, v.duration, none⟩) ∧
    (∀ (u e' : String) (v : VideoResult),
      GrokClient.generateCohesiveVideo (.ok u) (.error e') (.ok v)
        = .ok ⟨v.videoUrl, v.duration, none⟩) ∧
    (∀ (u : String) (vs : VideoResult) (fb : Except String VideoResult),
      GrokClient.generateCohesiveVideo (.ok u) (.ok vs) fb
        = .ok ⟨vs.videoUrl, vs.duration, some u⟩) :=
  ⟨fun e s₁ s₂ fb => rfl, fun e s v => rfl, fun u e' v => rfl, fun u vs fb => rfl⟩

/-! ### Field lemmas for the storyline claims -/

theorem getField_setField_self (fs : List (String × JSValue)) (k : String)
    (v : JSValue) : getField (setField fs k v) k = some v := by
  induction fs with
  | nil => simp [setField, getField, jsLookup]
  | cons p rest ih =>
    obtain ⟨k', v'⟩ := p
    by_cases h : k' = k
    · simp [setField, getField, jsLookup, h]
    · simpa [setField, getField, jsLookup, h] using ih

theorem getField_setField_ne (fs : List (String × JSValue)) (k k' : String)
    (v : JSValue) (h : k ≠ k') : getField (setField fs k v) k' = getField fs k' := by
  induction fs with
  | nil => simp [setField, getField, jsLookup, h]
  | cons p rest ih =>
    obtain ⟨k'', v''⟩ := p
    by_cases hk : k'' = k
    · subst hk
      simp [setField, getField, jsLookup, h]
    · by_cases hk' : k'' = k'
      · subst hk'
        have hne : ¬ k'' = k := hk
        simp [setField, getField, jsLookup, hne]
      · simpa [setField, getField, jsLookup, hk, hk'] using ih

/-- Counterexample to C10 as stated: a parsed model response whose
`scenes` is an explicitly EMPTY array passes the
`!parsed.scenes || !Array.isArray(parsed.scenes)` guard untouched, so the
returned storyline's `scenes` has length 0 — not a non-empty array. -/
theorem generateStoryline_empty_scenes_pass_through :
    scenesLength (GrokClient.generateStoryline
      (some [("title", .str "t"), ("scenes", .arr [])]) "" "slop" "Patrick Star")
      = some 0 := by
  rfl

/-- C10 (amended): every storyline returned by `generateStoryline` has a
`scenes` field that is an array; when the parsed response omits `scenes`
(or it is falsy or not an array) it is synthesized as the one-element
array `[parsed.videoPrompt]`, and the fallback storylines always carry a
one-element `scenes`; but a parsed response carrying an explicitly empty
`scenes` array is returned with `scenes` empty. -/
theorem generateStoryline_scenes_always_array
    (parseOutcome : Option (List (String × JSValue)))
    (content classification narratorName : String) :
    (scenesLength (GrokClient.generateStoryline parseOutcome content
        classification narratorName)).isSome = true ∧
    (parseOutcome = none →
      scenesLength (GrokClient.generateStoryline parseOutcome content
        classification narratorName) = some 1) ∧
    (∀ parsed, parseOutcome = some parsed →
      (!jsTruthy (getField parsed "scenes") || !isJSArray (getField parsed "scenes")) = true →
      scenesLength (GrokClient.generateStoryline parseOutcome content
        classification narratorName) = some 1) := by
  have hfallback : scenesLength (fallbackStoryline classification content narratorName)
      = some 1 := by
    by_cases h : classification = "no_slop"
    · subst h; rfl
    · simp only [fallbackStoryline, if_neg h]
      rfl
  have hsynth : ∀ parsed,
      (!jsTruthy (getField parsed "scenes") || !isJSArray (getField parsed "scenes")) = true →
      scenesLength (normalizeParsedStoryline parsed classification) = some 1 := by
    intro parsed hcond
    simp only [normalizeParsedStoryline, hcond, if_pos]
    unfold scenesLength
    rw [getField_setField_ne _ _ _ _ (by decide),
      getField_setField_self]
    rfl
  refine ⟨?_, ?_, ?_⟩
  · cases hpo : parseOutcome with
    | none =>
      simp only [GrokClient.generateStoryline, hfallback, Option.isSome_some]
    | some parsed =>
      simp only [GrokClient.generateStoryline]
      cases hcond : (!jsTruthy (getField parsed "scenes") || !isJSArray (getField parsed "scenes")) with
      | true => rw [hsynth parsed hcond]; rfl
      | false =>
        have harr : isJSArray (getField parsed "scenes") = true := by
          rcases Bool.or_eq_false_iff.mp hcond with ⟨h1, h2⟩
          simpa using h2
        obtain ⟨l, hl⟩ : ∃ l, getField parsed "scenes" = some (.arr l) := by
          cases hg : getField parsed "scenes" with
          | none => rw [hg] at harr; simp [isJSArray] at harr
          | some v =>
            cases v with
            | arr l => exact ⟨l, rfl⟩
            | _ => rw [hg] at harr; simp [isJSArray] at harr
        simp only [normalizeParsedStoryline, hcond, Bool.false_eq_true, if_false]
        unfold scenesLength
        rw [getField_setField_ne _ _ _ _ (by decide), hl]
        rfl
  · intro hpo
    subst hpo
    simpa [GrokClient.generateStoryline] using hfallback
  · intro parsed hpo hcond
    subst hpo
    simpa [GrokClient.generateStoryline] using hsynth parsed hcond

/-- Witness for C10's amended theorem: a fallback storyline and a parsed
response with a non-array `scenes` both end with a one-element `scenes`
array. -/
theorem generateStoryline_scenes_always_array_witness :
    scenesLength (GrokClient.generateStoryline none "c" "slop" "Homer Simpson") = some 1 ∧
    scenesLength (GrokClient.generateStoryline
      (some [("scenes", .str "x"), ("videoPrompt", .str "vp")]) "" "slop"
      "SpongeBob SquarePants") = some 1 := by
  refine ⟨(generateStoryline_scenes_always_array none "c" "slop" "Homer Simpson").2.1 rfl, ?_⟩
  exact (generateStoryline_scenes_always_array _ "" "slop" "SpongeBob SquarePants").2.2
    [("scenes", .str "x"), ("videoPrompt", .str "vp")] rfl (by rfl)

/-! ### Permutation lemmas for the cache-key claims -/

/-- Association-list lookup is invariant under permutation when the keys
are duplicate-free. -/
theorem jsLookup_perm {α : Type} {k : String} :
    ∀ {l₁ l₂ : List (String × α)}, l₁.Perm l₂ → (l₁.map Prod.fst).Nodup →
      jsLookup l₁ k = jsLookup l₂ k := by
  intro l₁ l₂ hp
  induction hp with
  | nil => intro _; rfl
  | cons x h ih =>
    intro hn
    obtain ⟨kx, vx⟩ := x
    simp only [List.map_cons, List.nodup_cons] at hn
    by_cases hk : kx = k
    · simp [jsLookup, hk]
    · simp [jsLookup, hk, ih hn.2]
  | swap x y l =>
    intro hn
    obtain ⟨kx, vx⟩ := x
    obtain ⟨ky, vy⟩ := y
    simp only [List.map_cons, List.nodup_cons, List.mem_cons] at hn
    have hxy : ¬ ky = kx := fun hh => hn.1 (Or.inl hh)
    by_cases h1 : ky = k
    · subst h1
      simp [jsLookup, if_neg (fun hh : kx = ky => hxy hh.symm)]
    · by_cases h2 : kx = k
      · simp [jsLookup, h1, h2]
      · simp [jsLookup, h1, h2]
  | trans h₁ h₂ ih₁ ih₂ =>
    intro hn
    have hn' := ((h₁.map Prod.fst).nodup_iff).mp hn
    rw [ih₁ hn, ih₂ hn']

theorem lexLeb_total : ∀ as bs : List Char, lexLeb as bs = true ∨ lexLeb bs as = true
  | [], _ => Or.inl rfl
  | _ :: _, [] => Or.inr rfl
  | a :: as, b :: bs => by
    rcases lt_trichotomy a b with h | h | h
    · left; simp [lexLeb, h]
    · subst h
      rcases lexLeb_total as bs with h' | h'
      · left; simp [lexLeb, lt_irrefl, h']
      · right; simp [lexLeb, lt_irrefl, h']
    · right; simp [lexLeb, h]

theorem lexLeb_trans : ∀ as bs cs : List Char,
    lexLeb as bs = true → lexLeb bs cs = true → lexLeb as cs = true
  | [], _, _ => by intro _ _; rfl
  | _ :: _, [], _ => by intro h _; simp [lexLeb] at h
  | _ :: _, _ :: _, [] => by intro _ h; simp [lexLeb] at h
  | a :: as, b :: bs, c :: cs => by
    intro h1 h2
    rcases lt_trichotomy a b with hab | hab | hab
    · rcases lt_trichotomy b c with hbc | hbc | hbc
      · simp [lexLeb, lt_trans hab hbc]
      · subst hbc; simp [lexLeb, hab]
      · simp [lexLeb, asymm hbc, hbc] at h2
    · subst hab
      simp only [lexLeb, lt_irrefl, if_false] at h1
      rcases lt_trichotomy a c with hac | hac | hac
      · simp [lexLeb, hac]
      · subst hac
        simp only [lexLeb, lt_irrefl, if_false] at h2 ⊢
        exact lexLeb_trans as bs cs h1 h2
      · simp [lexLeb, asymm hac, hac] at h2
    · simp [lexLeb, asymm hab, hab] at h1

theorem lexLeb_antisymm : ∀ as bs : List Char,
    lexLeb as bs = true → lexLeb bs as = true → as = bs
  | [], [] => by intro _ _; rfl
  | [], _ :: _ => by intro _ h; simp [lexLeb] at h
  | _ :: _, [] => by intro h _; simp [lexLeb] at h
  | a :: as, b :: bs => by
    intro h1 h2
    rcases lt_trichotomy a b with hab | hab | hab
    · simp [lexLeb, asymm hab, hab] at h2
    · subst hab
      simp only [lexLeb, lt_irrefl, if_false] at h1 h2
      rw [lexLeb_antisymm as bs h1 h2]
    · simp [lexLeb, asymm hab, hab] at h1

theorem strLeb_antisymm (a b : String) (h1 : strLeb a b = true)
    (h2 : strLeb b a = true) : a = b := by
  have h := lexLeb_antisymm a.data b.data h1 h2
  cases a
  cases b
  exact congrArg String.mk h

instance : IsTotal String (fun a b => strLeb a b = true) :=
  ⟨fun a b => lexLeb_total a.data b.data⟩

instance : IsTrans String (fun a b => strLeb a b = true) :=
  ⟨fun a b c => lexLeb_trans a.data b.data c.data⟩

instance : IsAntisymm String (fun a b => strLeb a b = true) :=
  ⟨strLeb_antisymm⟩

/-- Sorting is a canonical form: permuted key lists sort identically. -/
theorem sortKeys_eq_of_perm (l₁ l₂ : List String) (h : l₁.Perm l₂) :
    sortKeys l₁ = sortKeys l₂ :=
  List.eq_of_perm_of_sorted
    ((List.perm_insertionSort _ l₁).trans (h.trans (List.perm_insertionSort _ l₂).symm))
    (List.sorted_insertionSort _ l₁) (List.sorted_insertionSort _ l₂)

theorem serializeFields_eq_map (allow : List String) (fs : List (String × JSValue)) :
    serializeFields allow fs = fs.map (fun p => (p.1, serializeVal allow p.2)) := by
  induction fs with
  | nil => rfl
  | cons p rest ih =>
    obtain ⟨k, v⟩ := p
    simp [serializeFields, ih]

theorem serializeFields_map_fst (allow : List String) (fs : List (String × JSValue)) :
    (serializeFields allow fs).map Prod.fst = fs.map Prod.fst := by
  rw [serializeFields_eq_map, List.map_map]
  rfl

/-- The function `selectKeys` only consults the rendered fields through lookups. -/
theorem selectKeys_congr (keys : List String)
    (r₁ r₂ : List (String × Option String))
    (h : ∀ k, jsLookup r₁ k = jsLookup r₂ k) :
    selectKeys keys r₁ = selectKeys keys r₂ := by
  induction keys with
  | nil => rfl
  | cons k ks ih => simp only [selectKeys, h k, ih]

/-- C6: `generateKey` is a pure function of `(prefix, params)` and is
independent of the insertion order of the parameter object's keys: for
any two association lists that are permutations of one another (same
parameter set, duplicate-free keys — as JavaScript object literals are)
the generated cache keys coincide. -/
theorem generateKey_order_independent (pre : String)
    (ps₁ ps₂ : List (String × JSValue))
    (hperm : ps₁.Perm ps₂) (hnodup : (ps₁.map Prod.fst).Nodup) :
    Cache.generateKey pre ps₁ = Cache.generateKey pre ps₂ := by
  have hkeys : sortKeys (ps₁.map Prod.fst) = sortKeys (ps₂.map Prod.fst) :=
    sortKeys_eq_of_perm _ _ (hperm.map Prod.fst)
  have hrperm : (serializeFields (sortKeys (ps₁.map Prod.fst)) ps₁).Perm
      (serializeFields (sortKeys (ps₁.map Prod.fst)) ps₂) := by
    rw [serializeFields_eq_map, serializeFields_eq_map]
    exact hperm.map _
  have hrnodup : ((serializeFields (sortKeys (ps₁.map Prod.fst)) ps₁).map Prod.fst).Nodup := by
    rw [serializeFields_map_fst]
    exact hnodup
  have hlookup : ∀ k, jsLookup (serializeFields (sortKeys (ps₁.map Prod.fst)) ps₁) k
      = jsLookup (serializeFields (sortKeys (ps₁.map Prod.fst)) ps₂) k :=
    fun k => jsLookup_perm hrperm hrnodup
  have hparam : paramString ps₁ = paramString ps₂ := by
    unfold paramString
    rw [← hkeys]
    simp only [serializeVal]
    rw [selectKeys_congr _ _ _ hlookup]
  unfold Cache.generateKey
  rw [hparam]

/-- Witness for C6: `generateKey(p, {a:1,b:2}) = generateKey(p, {b:2,a:1})`. -/
theorem generateKey_order_independent_witness :
    ([("a", JSValue.num 1), ("b", JSValue.num 2)] :
      List (String × JSValue)).Perm [("b", JSValue.num 2), ("a", JSValue.num 1)] ∧
    (([("a", JSValue.num 1), ("b", JSValue.num 2)] :
      List (String × JSValue)).map Prod.fst).Nodup ∧
    Cache.generateKey "p" [("a", JSValue.num 1), ("b", JSValue.num 2)]
      = Cache.generateKey "p" [("b", JSValue.num 2), ("a", JSValue.num 1)] :=
  ⟨List.Perm.swap ("b", JSValue.num 2) ("a", JSValue.num 1) [],
    by simp,
    generateKey_order_independent "p" _ _
      (List.Perm.swap ("b", JSValue.num 2) ("a", JSValue.num 1) [])
      (by simp)⟩

set_option maxRecDepth 8192 in
/-- C7 fails on the code (code bug): because the sorted top-level key
array is passed to `JSON.stringify` as a REPLACER, it also filters the
keys of every nested object, so a nested parameter object such as the
storyline `context` serialises as an empty object and its value never
reaches the hash.  Two requests differing only in
`context.threadContext` therefore collide on the same cache key, while
the route (`routes/beef.js` line 1066) deliberately includes `context`
in the storyline key. -/
theorem generateKey_drops_nested_context :
    Cache.generateKey "storyline"
      [("tweet_text", .str "hello"), ("author", .str "alice"),
        ("context", .obj [("threadContext", .str "AAA")])]
      = Cache.generateKey "storyline"
      [("tweet_text", .str "hello"), ("author", .str "alice"),
        ("context", .obj [("threadContext", .str "BBB")])] ∧
    paramString
      [("tweet_text", .str "hello"), ("author", .str "alice"),
        ("context", .obj [("threadContext", .str "AAA")])]
      = "\x7b\"author\":\"alice\",\"context\":\x7b\x7d,\"tweet_text\":\"hello\"\x7d" ∧
    JSValue.obj [("threadContext", JSValue.str "AAA")]
      ≠ JSValue.obj [("threadContext", JSValue.str "BBB")] :=
  ⟨rfl, rfl, by simp⟩

/-! ### Lemmas for the batch endpoint -/

theorem batchPhase1_length (sOf : Nat → Except String StorylineData) :
    ∀ (i : Nat) (ts : List BatchTweet), (batchPhase1 sOf i ts).length = ts.length := by
  intro i ts
  induction ts generalizing i with
  | nil => rfl
  | cons t rest ih => simp [batchPhase1, ih]

theorem batchPhase1_getElem (sOf : Nat → Except String StorylineData) :
    ∀ (i j : Nat) (ts : List BatchTweet) (t : BatchTweet),
      ts[j]? = some t →
      (batchPhase1 sOf i ts)[j]? = some (batchItemPhase1 sOf (i + j) t) := by
  intro i j ts
  induction ts generalizing i j with
  | nil => intro t ht; simp at ht
  | cons hd rest ih =>
    intro t ht
    cases j with
    | zero =>
      simp only [List.getElem?_cons_zero, Option.some.injEq] at ht
      subst ht
      simp [batchPhase1]
    | succ j' =>
      simp only [List.getElem?_cons_succ] at ht
      have := ih (i + 1) j' t ht
      have harith : i + 1 + j' = i + (j' + 1) := by omega
      rw [harith] at this
      simpa [batchPhase1] using this

/-- Counterexample to C8 as stated: a batch of 0 items — which has at
most 5 items — is NOT accepted: the endpoint rejects an empty `tweets`
array with a validation error before any work. -/
theorem batchEndpoint_rejects_empty :
    batchEndpoint (some ([] : List BatchTweet)) (fun _ => Except.error "s")
      (fun _ => Except.error "v") (fun _ => Except.error "t")
      = .error (400, "tweets array is required") ∧
    ([] : List BatchTweet).length ≤ 5 :=
  ⟨rfl, by decide⟩

/-- C8 (amended): a submission of more than 5 items is rejected with the
batch-size validation error whatever the per-item computations would do
(no remote call or cache computation is consulted); a NONEMPTY batch of
at most 5 items is accepted, its result array preserves input order —
element `j` is exactly the record built from item `j` and the outcomes of
item `j`'s own storyline/video/thumbnail computations, so every item is
attempted even if other items fail — each element's `index` field is its
position, and an item whose storyline computation failed yields an
`{error, index}` record carrying that message.  (An EMPTY batch is
rejected with `tweets array is required`, which is the one amendment to
the claim.) -/
theorem batchEndpoint_cap_order_isolation :
    (∀ (ts : List BatchTweet) (sOf : Nat → Except String StorylineData)
      (vOf : Nat → Except String VideoResult) (tOf : Nat → Except String ThumbnailResult),
      5 < ts.length →
      batchEndpoint (some ts) sOf vOf tOf = .error (400, "Batch size exceeds maximum of 5")) ∧
    (∀ (ts : List BatchTweet) (sOf : Nat → Except String StorylineData)
      (vOf : Nat → Except String VideoResult) (tOf : Nat → Except String ThumbnailResult),
      1 ≤ ts.length → ts.length ≤ 5 →
      ∃ rs, batchEndpoint (some ts) sOf vOf tOf = .ok rs ∧
        rs.length = ts.length ∧
        (∀ (j : Nat) (t : BatchTweet), ts[j]? = some t →
          rs[j]? = some (batchItemPhase2 vOf tOf (batchItemPhase1 sOf j t)))) ∧
    (∀ (sOf : Nat → Except String StorylineData)
      (vOf : Nat → Except String VideoResult) (tOf : Nat → Except String ThumbnailResult)
      (j : Nat) (t : BatchTweet),
      (batchItemPhase2 vOf tOf (batchItemPhase1 sOf j t)).index = j) ∧
    (∀ (sOf : Nat → Except String StorylineData)
      (vOf : Nat → Except String VideoResult) (tOf : Nat → Except String ThumbnailResult)
      (j : Nat) (t : BatchTweet) (e : String),
      truthy t.tweet_text = true → truthy t.author = true → sOf j = .error e →
      batchItemPhase2 vOf tOf (batchItemPhase1 sOf j t)
        = ⟨some e, j, some t, none, none, none, none, none, none⟩) := by
  refine ⟨?_, ?_, ?_, ?_⟩
  · intro ts sOf vOf tOf h
    have h0 : ¬ ts.length = 0 := by omega
    simp [batchEndpoint, h0, h]
  · intro ts sOf vOf tOf h1 h5
    have h0 : ¬ ts.length = 0 := by omega
    have h5' : ¬ ts.length > 5 := by omega
    refine ⟨(batchPhase1 sOf 0 ts).map (batchItemPhase2 vOf tOf), ?_, ?_, ?_⟩
    · simp [batchEndpoint, h0, h5']
    · simp [List.length_map, batchPhase1_length]
    · intro j t ht
      rw [List.getElem?_map, batchPhase1_getElem sOf 0 j ts t ht]
      simp
  · intro sOf vOf tOf j t
    unfold batchItemPhase1
    by_cases hv : (!truthy t.tweet_text || !truthy t.author) = true
    · simp [hv, batchItemPhase2]
    · simp only [Bool.not_eq_true] at hv
      rw [if_neg (by simp [hv])]
      cases hs : sOf j <;> simp [batchItemPhase2]
  · intro sOf vOf tOf j t e htt tha herr
    unfold batchItemPhase1
    rw [if_neg (by simp [htt, tha]), herr]
    rfl

/-- Witness for C8's amended theorem: a 6-item batch is rejected with the
size error; in a 2-item batch whose second storyline computation fails,
element 1 is the `{error, index}` record and element 0 is attempted. -/
theorem batchEndpoint_cap_order_isolation_witness :
    batchEndpoint (some (List.replicate 6 (⟨none, none, none⟩ : BatchTweet)))
      (fun _ => Except.error "s") (fun _ => Except.error "v") (fun _ => Except.error "t")
      = .error (400, "Batch size exceeds maximum of 5") ∧
    (batchItemPhase2 (fun _ => Except.error "v") (fun _ => Except.error "t")
      (batchItemPhase1 (fun _ => Except.error "boom") 1 ⟨none, some "txt", some "bob"⟩))
      = ⟨some "boom", 1, some ⟨none, some "txt", some "bob"⟩,
          none, none, none, none, none, none⟩ ∧
    (batchItemPhase2 (fun _ => Except.error "v") (fun _ => Except.error "t")
      (batchItemPhase1 (fun _ => Except.error "boom") 0 ⟨none, some "txt", some "alice"⟩)).index
      = 0 := by
  refine ⟨?_, ?_, ?_⟩
  · exact batchEndpoint_cap_order_isolation.1 _ _ _ _ (by decide)
  · exact batchEndpoint_cap_order_isolation.2.2.2 _ _ _ 1
      ⟨none, some "txt", some "bob"⟩ "boom" (by decide) (by decide) rfl
  · exact batchEndpoint_cap_order_isolation.2.2.1 _ _ _ 0 ⟨none, some "txt", some "alice"⟩
